import Mathlib

/-!
Shallow embedding of `src/fetch_all_garmin_data.py` (garmin-health-data).

Remote endpoints of the Garmin client are modelled as oracles: each endpoint
is a function from its (string) arguments and an attempt index to
`Except Unit Value`, where `Except.error ()` models the call raising an
exception on that attempt and `Except.ok v` models it returning the value `v`.
Python values flowing through the script are modelled by the JSON-like type
`Value`; Python `None` is `Value.vnull`, and Python truthiness is
`Value.truthy`.  Thread-pool completion order is abstracted as submission
order: the script sorts the accumulated results by date before returning, so
every property proved below about the sorted output is completion-order
independent for the inputs considered.
-/

/-- JSON-like values, modelling the Python values the script manipulates.
`vnull` is Python `None`; `vobj` is a `dict` as an insertion-ordered
association list; `vlist` is a `list`. -/
inductive Value : Type where
  | vnull : Value
  | vbool : Bool → Value
  | vnum : Int → Value
  | vstr : String → Value
  | vlist : List Value → Value
  | vobj : List (String × Value) → Value

/-- Python truthiness (`if result:`): `None`, `False`, `0`, `""`, `[]`, `{}`
are falsy, everything else truthy. -/
def Value.truthy : Value → Bool
  | .vnull => false
  | .vbool b => b
  | .vnum n => n != 0
  | .vstr s => s != ""
  | .vlist xs => !xs.isEmpty
  | .vobj fs => !fs.isEmpty

/-- `d.get(key)` on a dict modelled as an association list: first binding
for `key`, if any. -/
def lookupField : List (String × Value) → String → Option Value
  | [], _ => none
  | (k, v) :: rest, key => if k = key then some v else lookupField rest key

/-- `d[key] = v` on a dict: overwrite the first binding for `key` in place,
or append a new binding at the end (Python dicts preserve insertion order). -/
def setField : List (String × Value) → String → Value → List (String × Value)
  | [], key, v => [(key, v)]
  | (k, w) :: rest, key, v =>
      if k = key then (k, v) :: rest else (k, w) :: setField rest key v

/-- The sort key used at the end of `fetch_history_parallel`:
`lambda x: x.get("date", "")`.  Every entry the accumulator ever holds is a
dict carrying a `"date"` string (set right before appending), so the
non-dict / non-string fallbacks to `""` are never reached on the values the
script actually sorts. -/
def dateKey : Value → String
  | .vobj fs =>
      match lookupField fs "date" with
      | some (.vstr s) => s
      | _ => ""
  | _ => ""

/-- Lexicographic comparison of character lists by code point, the order
Python uses to compare `str` values (a strict prefix is smaller). -/
def charListLe : List Char → List Char → Bool
  | [], _ => true
  | _ :: _, [] => false
  | a :: as, b :: bs =>
    if a.toNat < b.toNat then true
    else if b.toNat < a.toNat then false
    else charListLe as bs

/-- Python `s1 <= s2` on strings: lexicographic by code point. -/
def strLe (a b : String) : Bool := charListLe a.data b.data

/-- `results.sort(key=lambda x: x.get("date", ""), reverse=True)`: the order
"descending by date key". -/
def descByDate : Value → Value → Prop := fun a b => strLe (dateKey b) (dateKey a) = true

instance : DecidableRel descByDate := fun a b =>
  inferInstanceAs (Decidable (strLe (dateKey b) (dateKey a) = true))

instance : IsTotal Value descByDate := by
  constructor
  intro a b
  simp only [descByDate, strLe]
  have key : ∀ x y : List Char, charListLe x y = true ∨ charListLe y x = true := by
    intro x
    induction x with
    | nil => intro y; left; rfl
    | cons a0 as ih =>
      intro y
      cases y with
      | nil => right; rfl
      | cons b0 bs =>
        by_cases hab : a0.toNat < b0.toNat
        · left; simp [charListLe, hab]
        · by_cases hba : b0.toNat < a0.toNat
          · right; simp [charListLe, hba]
          · rcases ih bs with h | h
            · left; simp [charListLe, hab, hba, h]
            · right; simp [charListLe, hab, hba, h]
  exact key (dateKey b).data (dateKey a).data

instance : IsTrans Value descByDate := by
  constructor
  intro a b c h1 h2
  simp only [descByDate, strLe] at h1 h2 ⊢
  have key : ∀ x y z : List Char,
      charListLe x y = true → charListLe y z = true → charListLe x z = true := by
    intro x
    induction x with
    | nil => intro y z _ _; rfl
    | cons a0 as ih =>
      intro y z hxy hyz
      cases y with
      | nil => simp [charListLe] at hxy
      | cons b0 bs =>
        cases z with
        | nil => simp [charListLe] at hyz
        | cons c0 cs =>
          simp only [charListLe] at hxy hyz ⊢
          by_cases hab : a0.toNat < b0.toNat
          · by_cases hbc : b0.toNat < c0.toNat
            · have hac : a0.toNat < c0.toNat := by omega
              simp [hac]
            · by_cases hcb : c0.toNat < b0.toNat
              · simp [hbc, hcb] at hyz
              · have hac : a0.toNat < c0.toNat := by omega
                simp [hac]
          · by_cases hba : b0.toNat < a0.toNat
            · simp [hab, hba] at hxy
            · simp [hab, hba] at hxy
              by_cases hbc : b0.toNat < c0.toNat
              · have hac : a0.toNat < c0.toNat := by omega
                simp [hac]
              · by_cases hcb : c0.toNat < b0.toNat
                · simp [hbc, hcb] at hyz
                · simp [hbc, hcb] at hyz
                  have hac1 : ¬ a0.toNat < c0.toNat := by omega
                  have hac2 : ¬ c0.toNat < a0.toNat := by omega
                  simp [hac1, hac2]
                  exact ih bs cs hxy hyz
  exact key (dateKey c).data (dateKey b).data (dateKey a).data h2 h1

/-- `safe_call(func, *args, default=default)` (lines 49-59), instrumented
with the number of times the operation was invoked.  The Python loop is
`for attempt in range(3)`: try the call, on success return the result, on an
exception sleep-and-retry while `attempt < 2`, and on the third failure
return `default`.  The operation is modelled as a map from the attempt index
to that attempt's outcome. -/
def safeCallTrace {α : Type} (f : Nat → Except Unit α) (dflt : α) : α × Nat :=
  match f 0 with
  | .ok v => (v, 1)
  | .error _ =>
    match f 1 with
    | .ok v => (v, 2)
    | .error _ =>
      match f 2 with
      | .ok v => (v, 3)
      | .error _ => (dflt, 3)

/-- The value returned by `safe_call` (its only observable result in the
script). -/
def safeCall {α : Type} (f : Nat → Except Unit α) (dflt : α) : α :=
  (safeCallTrace f dflt).1

/-- The ten per-day data categories dispatched on by `fetch_day_data`
(lines 62-94). -/
inductive DataType : Type where
  | stats | sleep | heartRate | hrv | stress
  | respiration | spo2 | floors | hydration | intensity
deriving DecidableEq

/-- The authenticated Garmin client, modelled as one oracle per endpoint the
script calls.  String arguments are the ISO date (or date-range / id)
strings the script passes; the trailing `Nat` is the retry attempt index
consumed by `safeCall`. -/
structure ClientEnv : Type where
  get_stats : String → Nat → Except Unit Value
  get_sleep_data : String → Nat → Except Unit Value
  get_heart_rates : String → Nat → Except Unit Value
  get_hrv_data : String → Nat → Except Unit Value
  get_stress_data : String → Nat → Except Unit Value
  get_respiration_data : String → Nat → Except Unit Value
  get_spo2_data : String → Nat → Except Unit Value
  get_floors : String → Nat → Except Unit Value
  get_hydration_data : String → Nat → Except Unit Value
  get_intensity_minutes_data : String → Nat → Except Unit Value
  get_user_profile : Nat → Except Unit Value
  get_devices : Nat → Except Unit Value
  get_daily_steps : String → String → Nat → Except Unit Value
  get_body_battery : String → String → Nat → Except Unit Value
  get_body_composition : String → String → Nat → Except Unit Value
  get_weigh_ins : String → String → Nat → Except Unit Value
  get_blood_pressure : String → String → Nat → Except Unit Value
  get_hill_score : String → String → Nat → Except Unit Value
  get_endurance_score : String → String → Nat → Except Unit Value
  get_activities : Nat → Nat → Nat → Except Unit Value
  get_activity_types : Nat → Except Unit Value
  get_training_status : String → Nat → Except Unit Value
  get_training_readiness : String → Nat → Except Unit Value
  get_max_metrics : String → Nat → Except Unit Value
  get_fitnessage_data : String → Nat → Except Unit Value
  get_race_predictions : Nat → Except Unit Value
  get_personal_record : Nat → Except Unit Value
  get_goals : String → Nat → Except Unit Value
  get_earned_badges : Nat → Except Unit Value
  get_badge_challenges : Nat → Nat → Nat → Except Unit Value
  get_gear : String → Nat → Except Unit Value
  get_workouts : Nat → Except Unit Value

/-- `fetch_day_data(client, date_str, data_type)` (lines 62-94).  Each branch
wraps its endpoint in `safe_call`; the `sleep` branch additionally unwraps
`dailySleepDTO` and grafts `sleep_levels` onto it.  Any exception escaping the
branch body (e.g. `.get` on a truthy non-dict, or item assignment into a
truthy non-dict `dailySleepDTO`) is swallowed by the surrounding
`try/except`, which returns `None` (`vnull`). -/
def fetch_day_data (c : ClientEnv) (date_str : String) (t : DataType) : Value :=
  match t with
  | .stats => safeCall (c.get_stats date_str) (.vobj [])
  | .sleep =>
    let sleep := safeCall (c.get_sleep_data date_str) .vnull
    if sleep.truthy then
      match sleep with
      | .vobj fs =>
        match lookupField fs "dailySleepDTO" with
        | some dto =>
          if dto.truthy then
            match dto with
            | .vobj dfs =>
                .vobj (setField dfs "sleep_levels"
                  ((lookupField fs "sleepLevels").getD (.vlist [])))
            | _ => .vnull
          else .vnull
        | none => .vnull
      | _ => .vnull
    else .vnull
  | .heartRate => safeCall (c.get_heart_rates date_str) .vnull
  | .hrv => safeCall (c.get_hrv_data date_str) .vnull
  | .stress => safeCall (c.get_stress_data date_str) .vnull
  | .respiration => safeCall (c.get_respiration_data date_str) .vnull
  | .spo2 => safeCall (c.get_spo2_data date_str) .vnull
  | .floors => safeCall (c.get_floors date_str) .vnull
  | .hydration => safeCall (c.get_hydration_data date_str) .vnull
  | .intensity => safeCall (c.get_intensity_minutes_data date_str) .vnull

/-- The per-future collection step of `fetch_history_parallel` (lines
107-115): if the task's result is truthy, set `result["date"] = date_str`
and keep it; falsy results are dropped, and a truthy non-dict result makes
the item assignment raise `TypeError`, which the `except Exception: pass`
swallows, dropping the result as well. -/
def tagDate (date_str : String) (v : Value) : Option Value :=
  if v.truthy then
    match v with
    | .vobj fs => some (.vobj (setField fs "date" (.vstr date_str)))
    | _ => none
  else none

/-- `fetch_history_parallel(client, dates, data_type)` (lines 97-119): run
`fetch_day_data` for every date, keep the truthy results tagged with their
date, and sort the accumulator descending by date key.  Completion order of
the thread pool is abstracted as submission order (the final sort is what
the function's output contract rests on). -/
def fetch_history_parallel (c : ClientEnv) (dates : List String) (t : DataType) :
    List Value :=
  List.insertionSort descByDate
    (dates.filterMap fun date_str => tagDate date_str (fetch_day_data c date_str t))

/-- Observable outcome of `get_client()` (lines 31-46): which login path was
taken, how many fresh credential logins were performed, how many times the
session file was (re)written via `client.garth.dump`, and the final content
of the session file. -/
structure GetClientOutcome : Type where
  usedSavedSession : Bool
  freshLogins : Nat
  dumps : Nat
  sessionFile : Option String
deriving DecidableEq

/-- `get_client()` (lines 31-46).  `file` is the session-store content
(`none` when `SESSION_FILE` does not exist); `accepts t` tells whether the
remote service accepts `client.login(str(SESSION_FILE))` with stored token
`t`; `fresh` is the outcome of a fresh `client.login()`, yielding the new
session token that `client.garth.dump` then writes.  A failing fresh login
propagates its exception (`Except.error`), aborting the run. -/
def get_client (accepts : String → Bool) (fresh : Except Unit String)
    (file : Option String) : Except Unit GetClientOutcome :=
  match file with
  | some t =>
    if accepts t then
      .ok ⟨true, 0, 0, some t⟩
    else
      match fresh with
      | .error e => .error e
      | .ok t2 => .ok ⟨false, 1, 1, some t2⟩
  | none =>
    match fresh with
    | .error e => .error e
    | .ok t2 => .ok ⟨false, 1, 1, some t2⟩

/-- The date list of `fetch_all_data` (line 129):
`[(today - timedelta(days=i)).isoformat() for i in range(days_history + 1)]`.
Calendar arithmetic lives in the `datetime` library, so it is abstracted as
`dateOf`, where `dateOf i` stands for `(today - timedelta(days=i)).isoformat()`
(in particular `dateOf 0` is today's ISO date). -/
def genDates (dateOf : Nat → String) (days_history : Nat) : List String :=
  (List.range (days_history + 1)).map dateOf

/-- The activities pagination loop of `fetch_all_data` (lines 216-227),
with explicit fuel (the Python loop is `while True`, so it need not
terminate when the service keeps answering full batches; `none` models the
loop still running after `fuel` iterations, or crashing on a truthy
non-list batch, whose `all_activities.extend(batch)` would raise an
uncaught `TypeError`).  Each iteration fetches
`safe_call(client.get_activities, offset, batch_size, default=[])` with
`batch_size = 1000`, breaks on a falsy batch, extends the accumulator,
advances `offset` by `len(batch)`, and breaks when the batch is short. -/
def fetchActivitiesLoop (c : ClientEnv) : Nat → Nat → List Value → Option (List Value)
  | 0, _, _ => none
  | fuel + 1, offset, acc =>
    let batch := safeCall (c.get_activities offset 1000) (.vlist [])
    if batch.truthy then
      match batch with
      | .vlist items =>
        let acc2 := acc ++ items
        if items.length < 1000 then some acc2
        else fetchActivitiesLoop c fuel (offset + items.length) acc2
      | _ => none
    else some acc

/-- The Aggregate Record assembled by `fetch_all_data` (lines 122-252): the
`data` dictionary just before it is handed to the output formatters.  The
nested `date_range` dict is flattened into its three fields. -/
structure AggregateRecord : Type where
  fetched_at : String
  date_range_start : String
  date_range_end : String
  date_range_days : Nat
  user_profile : Value
  devices : Value
  daily_steps_bulk : Value
  body_battery_bulk : Value
  body_composition : Value
  weight_history : Value
  blood_pressure : Value
  hill_score : Value
  endurance_score : Value
  daily_stats : List Value
  sleep_history : List Value
  heart_rate_history : List Value
  hrv_history : List Value
  stress_history : List Value
  respiration_history : List Value
  spo2_history : List Value
  activities : Option (List Value)
  activity_types : Value
  training_status : Value
  training_readiness : Value
  max_metrics : Value
  fitness_age : Value
  race_predictions : Value
  personal_records : Value
  goals : Value
  earned_badges : Value
  badge_challenges : Value
  gear : Value
  workouts : Value

/-- `fetch_all_data(days_history)` (lines 122-252), up to the point where the
aggregate `data` dict is complete (the subsequent file writes are the output
formatters, outside this model).  The two clock reads are parameters:
`now_iso` is `datetime.now().isoformat()` (line 135) and `dateOf` abstracts
date arithmetic on `today = datetime.now().date()` as in `genDates`, so
`start_date.isoformat()` is `dateOf days_history` and `today.isoformat()` is
`dateOf 0`.  Authentication (`get_client`, line 124) is modelled separately;
here the already-authenticated client oracles are the `c` argument.
`activitiesFuel` bounds the `while True` pagination loop. -/
def fetch_all_data (c : ClientEnv) (now_iso : String) (dateOf : Nat → String)
    (days_history : Nat) (activitiesFuel : Nat) : AggregateRecord :=
  let dates := genDates dateOf days_history
  let start_str := dateOf days_history
  let end_str := dateOf 0
  { fetched_at := now_iso
    date_range_start := start_str
    date_range_end := end_str
    date_range_days := days_history
    user_profile := safeCall c.get_user_profile (.vobj [])
    devices := safeCall c.get_devices (.vlist [])
    daily_steps_bulk := safeCall (c.get_daily_steps start_str end_str) (.vlist [])
    body_battery_bulk := safeCall (c.get_body_battery start_str end_str) (.vlist [])
    body_composition := safeCall (c.get_body_composition start_str end_str) (.vobj [])
    weight_history := safeCall (c.get_weigh_ins start_str end_str) (.vlist [])
    blood_pressure := safeCall (c.get_blood_pressure start_str end_str) (.vlist [])
    hill_score := safeCall (c.get_hill_score start_str end_str) (.vobj [])
    endurance_score := safeCall (c.get_endurance_score start_str end_str) (.vobj [])
    daily_stats := fetch_history_parallel c dates .stats
    sleep_history := fetch_history_parallel c dates .sleep
    heart_rate_history := fetch_history_parallel c dates .heartRate
    hrv_history := fetch_history_parallel c dates .hrv
    stress_history := fetch_history_parallel c dates .stress
    respiration_history := fetch_history_parallel c dates .respiration
    spo2_history := fetch_history_parallel c dates .spo2
    activities := fetchActivitiesLoop c activitiesFuel 0 []
    activity_types := safeCall c.get_activity_types (.vlist [])
    training_status := safeCall (c.get_training_status end_str) (.vobj [])
    training_readiness := safeCall (c.get_training_readiness end_str) (.vobj [])
    max_metrics := safeCall (c.get_max_metrics end_str) (.vobj [])
    fitness_age := safeCall (c.get_fitnessage_data end_str) (.vobj [])
    race_predictions := safeCall c.get_race_predictions (.vobj [])
    personal_records := safeCall c.get_personal_record (.vobj [])
    goals := safeCall (c.get_goals "all") (.vobj [])
    earned_badges := safeCall c.get_earned_badges (.vlist [])
    badge_challenges := safeCall (c.get_badge_challenges 0 100) (.vlist [])
    gear := safeCall (c.get_gear "") (.vlist [])
    workouts := safeCall c.get_workouts (.vlist []) }

/-- A client whose every endpoint raises on every attempt (total remote
outage). -/
def envFail : ClientEnv where
  get_stats := fun _ _ => .error ()
  get_sleep_data := fun _ _ => .error ()
  get_heart_rates := fun _ _ => .error ()
  get_hrv_data := fun _ _ => .error ()
  get_stress_data := fun _ _ => .error ()
  get_respiration_data := fun _ _ => .error ()
  get_spo2_data := fun _ _ => .error ()
  get_floors := fun _ _ => .error ()
  get_hydration_data := fun _ _ => .error ()
  get_intensity_minutes_data := fun _ _ => .error ()
  get_user_profile := fun _ => .error ()
  get_devices := fun _ => .error ()
  get_daily_steps := fun _ _ _ => .error ()
  get_body_battery := fun _ _ _ => .error ()
  get_body_composition := fun _ _ _ => .error ()
  get_weigh_ins := fun _ _ _ => .error ()
  get_blood_pressure := fun _ _ _ => .error ()
  get_hill_score := fun _ _ _ => .error ()
  get_endurance_score := fun _ _ _ => .error ()
  get_activities := fun _ _ _ => .error ()
  get_activity_types := fun _ => .error ()
  get_training_status := fun _ _ => .error ()
  get_training_readiness := fun _ _ => .error ()
  get_max_metrics := fun _ _ => .error ()
  get_fitnessage_data := fun _ _ => .error ()
  get_race_predictions := fun _ => .error ()
  get_personal_record := fun _ => .error ()
  get_goals := fun _ _ => .error ()
  get_earned_badges := fun _ => .error ()
  get_badge_challenges := fun _ _ _ => .error ()
  get_gear := fun _ _ => .error ()
  get_workouts := fun _ => .error ()

/-- A client whose `get_stats` endpoint always succeeds immediately with a
non-empty stats dict; all other endpoints fail. -/
def envStatsOk : ClientEnv :=
  { envFail with get_stats := fun _ _ => .ok (.vobj [("totalSteps", .vnum 7)]) }

/-- A client whose `get_stats` endpoint always succeeds immediately, but with
an empty dict `{}` (a successful remote call carrying no data); all other
endpoints fail. -/
def envStatsEmpty : ClientEnv :=
  { envFail with get_stats := fun _ _ => .ok (.vobj []) }

/-- A client whose `get_activities` endpoint answers one short (1-element)
batch at offset 0 and fails at every other offset. -/
def envOneActivity : ClientEnv :=
  { envFail with
    get_activities := fun offset _ _ =>
      if offset = 0 then .ok (.vlist [.vnum 1]) else .error () }

/-- Looking a key up right after setting it yields the value just written. -/
theorem lookupField_setField (fs : List (String × Value)) (k : String) (v : Value) :
    lookupField (setField fs k v) k = some v := by
  induction fs with
  | nil => simp [setField, lookupField]
  | cons p rest ih =>
    obtain ⟨k0, w0⟩ := p
    by_cases hk : k0 = k
    · simp [setField, lookupField, hk]
    · simp [setField, lookupField, hk, ih]

/-- Every entry `tagDate` keeps carries the date it was tagged with as its
sort key. -/
theorem dateKey_tagDate {x : String} {v w : Value} (h : tagDate x v = some w) :
    dateKey w = x := by
  by_cases hv : v.truthy
  · cases v with
    | vobj fs =>
      simp [tagDate, hv] at h
      subst h
      simp [dateKey, lookupField_setField]
    | vnull => simp [tagDate, hv] at h
    | vbool b => simp [tagDate, hv] at h
    | vnum n => simp [tagDate, hv] at h
    | vstr s => simp [tagDate, hv] at h
    | vlist xs => simp [tagDate, hv] at h
  · simp [tagDate, hv] at h

/-- If a `filterMap` tags every kept element with the list element it came
from, then the number of kept elements carrying tag `d` is bounded by the
number of occurrences of `d` in the input list. -/
theorem countP_filterMap_le_count (f : String → Option Value)
    (hf : ∀ x w, f x = some w → dateKey w = x) (d : String) (dates : List String) :
    (dates.filterMap f).countP (fun v => dateKey v == d) ≤ dates.count d := by
  induction dates with
  | nil => simp
  | cons x xs ih =>
    cases hfx : f x with
    | none =>
      rw [List.filterMap_cons]
      simp only [hfx, List.count_cons]
      split <;> omega
    | some w =>
      rw [List.filterMap_cons]
      simp only [hfx, List.countP_cons, List.count_cons, hf x w hfx]
      split <;> omega

/-- C1, counterexample to the claim as stated: with the duplicated input date
list `["2024-06-01", "2024-06-01"]` and a stats endpoint that always
succeeds, `fetch_history_parallel` submits one task per list element and
returns two entries carrying the same date, so the output does not contain
at most one entry per input date. -/
theorem c1_counterexample :
    (fetch_history_parallel envStatsOk ["2024-06-01", "2024-06-01"]
        DataType.stats).countP (fun v => dateKey v == "2024-06-01") = 2 := by
  decide

/-- C1 (amended): for every list of pairwise-distinct input dates and every
category, `fetch_history_parallel` returns a sequence sorted non-increasing
by date, with at most one entry per date. -/
theorem c1_per_date_unique_sorted (c : ClientEnv) (dates : List String)
    (t : DataType) (hnd : dates.Nodup) :
    List.Pairwise descByDate (fetch_history_parallel c dates t) ∧
      ∀ d : String,
        (fetch_history_parallel c dates t).countP (fun v => dateKey v == d) ≤ 1 := by
  constructor
  · exact List.sorted_insertionSort descByDate _
  · intro d
    have hperm := List.perm_insertionSort descByDate
      (dates.filterMap fun ds => tagDate ds (fetch_day_data c ds t))
    rw [fetch_history_parallel, hperm.countP_eq]
    exact le_trans
      (countP_filterMap_le_count _ (fun x w h => dateKey_tagDate h) d dates)
      (List.nodup_iff_count_le_one.mp hnd d)

/-- C1 witness: concrete distinct-date run of the amended theorem. -/
theorem c1_witness :
    List.Pairwise descByDate
      (fetch_history_parallel envStatsOk ["2024-06-02", "2024-06-01"]
        DataType.stats) ∧
    (fetch_history_parallel envStatsOk ["2024-06-02", "2024-06-01"]
        DataType.stats).countP (fun v => dateKey v == "2024-06-01") ≤ 1 :=
  ⟨(c1_per_date_unique_sorted envStatsOk ["2024-06-02", "2024-06-01"]
      DataType.stats (by decide)).1,
   (c1_per_date_unique_sorted envStatsOk ["2024-06-02", "2024-06-01"]
      DataType.stats (by decide)).2 "2024-06-01"⟩

/-- C2: if the underlying operation raises on every invocation, `safe_call`
(with its hard-coded 3 attempts) invokes it exactly 3 times and returns the
supplied default. -/
theorem c2_retries_exhausted {α : Type} (f : Nat → Except Unit α) (dflt : α)
    (h : ∀ k, f k = .error ()) :
    safeCallTrace f dflt = (dflt, 3) := by
  simp [safeCallTrace, h 0, h 1, h 2]

/-- C2 witness: an always-raising operation with default `None`. -/
theorem c2_witness :
    safeCallTrace (fun _ => (.error () : Except Unit Value)) Value.vnull =
      (Value.vnull, 3) :=
  c2_retries_exhausted _ _ (fun _ => rfl)

/-- C3: when the session store holds a token the remote service accepts,
`get_client` returns a client via session restore, performs no fresh
credential login, and never rewrites the session file, whose content is
unchanged. -/
theorem c3_session_restore (accepts : String → Bool) (fresh : Except Unit String)
    (t : String) (h : accepts t = true) :
    get_client accepts fresh (some t) =
      .ok { usedSavedSession := true, freshLogins := 0, dumps := 0,
            sessionFile := some t } := by
  simp [get_client, h]

/-- C3 witness: a stored token the service accepts; the fresh-login path is
an always-raising stub, showing it is never consulted. -/
theorem c3_witness :
    get_client (fun _ => true) (.error ()) (some "tok") =
      .ok { usedSavedSession := true, freshLogins := 0, dumps := 0,
            sessionFile := some "tok" } :=
  c3_session_restore (fun _ => true) (.error ()) "tok" rfl

/-- C4: when the session store is absent or holds a token the remote service
rejects, `get_client` performs exactly one fresh credential login and
persists the newly obtained token to the session store. -/
theorem c4_fresh_login (accepts : String → Bool) (file : Option String)
    (t2 : String)
    (hfile : file = none ∨ ∃ t, file = some t ∧ accepts t = false) :
    get_client accepts (.ok t2) file =
      .ok { usedSavedSession := false, freshLogins := 1, dumps := 1,
            sessionFile := some t2 } := by
  rcases hfile with h | ⟨t, hf, ha⟩
  · subst h; simp [get_client]
  · subst hf; simp [get_client, ha]

/-- C4 witness: a stored but rejected token is replaced by the fresh login's
token. -/
theorem c4_witness :
    get_client (fun _ => false) (.ok "newtok") (some "oldtok") =
      .ok { usedSavedSession := false, freshLogins := 1, dumps := 1,
            sessionFile := some "newtok" } :=
  c4_fresh_login (fun _ => false) (some "oldtok") "newtok"
    (Or.inr ⟨"oldtok", rfl, rfl⟩)

/-- C6, counterexample to the claim as stated: the stats endpoint succeeds on
its very first attempt (no retry is exhausted), but returns an empty dict, so
the date is missing from the returned sequence even though the remote call
never failed. -/
theorem c6_counterexample :
    envStatsEmpty.get_stats "2024-06-01" 0 = .ok (.vobj []) ∧
      fetch_history_parallel envStatsEmpty ["2024-06-01"] DataType.stats = [] :=
  ⟨rfl, rfl⟩

/-- C6 (amended): a date can be missing from the returned sequence only if
its per-day fetch either failed on all attempts or produced a falsy or
non-dict result; equivalently, whenever `fetch_day_data` yields a truthy
dict for a requested date, the returned sequence has an entry for that
date. -/
theorem c6_success_yields_entry (c : ClientEnv) (dates : List String)
    (t : DataType) (d : String) (fs : List (String × Value)) (hd : d ∈ dates)
    (hres : fetch_day_data c d t = .vobj fs)
    (htr : (Value.vobj fs).truthy = true) :
    d ∈ (fetch_history_parallel c dates t).map dateKey := by
  have htag : tagDate d (fetch_day_data c d t) =
      some (.vobj (setField fs "date" (.vstr d))) := by
    simp [tagDate, hres, htr]
  have hmem : Value.vobj (setField fs "date" (.vstr d)) ∈
      dates.filterMap fun ds => tagDate ds (fetch_day_data c ds t) :=
    List.mem_filterMap.mpr ⟨d, hd, htag⟩
  have hmem2 : Value.vobj (setField fs "date" (.vstr d)) ∈
      fetch_history_parallel c dates t := by
    rw [fetch_history_parallel]
    exact (List.mem_insertionSort descByDate).mpr hmem
  exact List.mem_map.mpr ⟨_, hmem2, by simp [dateKey, lookupField_setField]⟩

/-- C6 witness: a successful truthy stats fetch for a requested date shows up
in the output under that date. -/
theorem c6_witness :
    "2024-06-01" ∈
      (fetch_history_parallel envStatsOk ["2024-06-01"] DataType.stats).map
        dateKey :=
  c6_success_yields_entry envStatsOk ["2024-06-01"] DataType.stats "2024-06-01"
    [("totalSteps", .vnum 7)] (by decide) rfl rfl

/-- C7: the batch cannot fail: for any client behavior `fetch_history_parallel`
returns a sequence no longer than the input date list (whatever succeeded),
and when every per-date task fails (its day fetch comes back falsy, e.g. the
remote call raised on all attempts), it returns the empty sequence. -/
theorem c7_batch_never_fails (c : ClientEnv) (dates : List String) (t : DataType) :
    (fetch_history_parallel c dates t).length ≤ dates.length ∧
      ((∀ d ∈ dates, (fetch_day_data c d t).truthy = false) →
        fetch_history_parallel c dates t = []) := by
  constructor
  · rw [fetch_history_parallel, List.length_insertionSort]
    exact List.length_filterMap_le _ _
  · intro hall
    rw [fetch_history_parallel]
    have hnil : (dates.filterMap fun ds => tagDate ds (fetch_day_data c ds t)) = [] := by
      rw [List.filterMap_eq_nil_iff]
      intro a ha
      simp [tagDate, hall a ha]
    rw [hnil]
    rfl

/-- C7 witness: a total outage (every endpoint raises on every attempt)
yields the empty sequence, not an error. -/
theorem c7_witness :
    fetch_history_parallel envFail ["2024-06-02", "2024-06-01"] DataType.stats = [] :=
  (c7_batch_never_fails envFail ["2024-06-02", "2024-06-01"] DataType.stats).2
    (by decide)

/-- C5, counterexample to the claim as stated: two runs against identical
remote responses (here: a fixed total-outage client and a fixed calendar) at
different wall-clock instants produce Aggregate Records that are not
identical, because line 135 stores each run's own `datetime.now().isoformat()`
in the `fetched_at` field. -/
theorem c5_counterexample :
    fetch_all_data envFail "2024-06-01T10:00:00" (fun _ => "2024-06-01") 0 1 ≠
      fetch_all_data envFail "2024-06-01T11:00:00" (fun _ => "2024-06-01") 0 1 := by
  intro h
  have h2 := congrArg AggregateRecord.fetched_at h
  simp only [fetch_all_data] at h2
  exact absurd h2 (by decide)

/-- C5 (amended): given identical remote responses and the same current
date, two runs of the aggregation produce Aggregate Records that agree on
every field except `fetched_at`, which records each run's own clock reading;
the records are identical exactly when the two clock readings coincide. -/
theorem c5_clock_independent (c : ClientEnv) (dateOf : Nat → String)
    (days fuel : Nat) (now1 now2 : String) :
    { fetch_all_data c now1 dateOf days fuel with fetched_at := "" } =
      { fetch_all_data c now2 dateOf days fuel with fetched_at := "" } := rfl

/-- C8: `safe_call` never propagates a failure of the underlying operation:
its result is either a value some attempt returned successfully, or the
supplied default once all three attempts failed — never a raised error. -/
theorem c8_never_propagates {α : Type} (f : Nat → Except Unit α) (dflt : α) :
    safeCall f dflt = dflt ∨ ∃ k, k < 3 ∧ f k = .ok (safeCall f dflt) := by
  rcases h0 : f 0 with e0 | v0
  · rcases h1 : f 1 with e1 | v1
    · rcases h2 : f 2 with e2 | v2
      · left; simp [safeCall, safeCallTrace, h0, h1, h2]
      · right; exact ⟨2, by omega, by simp [safeCall, safeCallTrace, h0, h1, h2]⟩
    · right; exact ⟨1, by omega, by simp [safeCall, safeCallTrace, h0, h1]⟩
  · right; exact ⟨0, by omega, by simp [safeCall, safeCallTrace, h0]⟩

/-- C9: the date list of `fetch_all_data` for `days_history = d` has exactly
`d + 1` entries, and for `d = 0` it is exactly today's date alone
(`dateOf 0` abstracts `today.isoformat()`). -/
theorem c9_date_list (dateOf : Nat → String) (d : Nat) :
    (genDates dateOf d).length = d + 1 ∧ genDates dateOf 0 = [dateOf 0] := by
  constructor
  · simp [genDates]
  · rfl

/-- C10: whenever the batch fetched at the current offset is an actual list
with fewer than 1000 items — in particular the empty list, which is also
what a failed `get_activities` call defaults to — the activities pagination
loop terminates at once, returning all previously collected activities
followed by that final batch. -/
theorem c10_pagination_stops (c : ClientEnv) (offset : Nat) (acc : List Value)
    (fuel : Nat) (bs : List Value)
    (hb : safeCall (c.get_activities offset 1000) (.vlist []) = .vlist bs)
    (hlen : bs.length < 1000) :
    fetchActivitiesLoop c (fuel + 1) offset acc = some (acc ++ bs) := by
  cases bs with
  | nil => simp [fetchActivitiesLoop, hb, Value.truthy]
  | cons b rest =>
    simp only [fetchActivitiesLoop, hb, Value.truthy, List.isEmpty_cons,
      Bool.not_false, if_true]
    split
    · rfl
    · omega

/-- C10 witness: one short batch at offset 0 ends pagination after a single
iteration, and the previously accumulated activity is retained in front of
it. -/
theorem c10_witness :
    fetchActivitiesLoop envOneActivity 1 0 [.vnum 0] = some [.vnum 0, .vnum 1] :=
  c10_pagination_stops envOneActivity 0 [.vnum 0] 0 [.vnum 1] rfl (by decide)
